import Mathlib

/-!
Verification of the NaukriScapper outbound-webhook subsystem.

Shallow embedding of `src/ai_integration.py`, `src/data_manager.py`,
`src/api.py` and the configuration module `src/config.py`.  Python dicts
read through fixed keys become structures; module-level configuration
becomes an explicit `Config` record; network I/O is made observable as an
event list; fallible paths (uncaught exceptions) return `Except`.
-/

namespace NaukriScapper

/-- A URL after `urllib.parse.urlparse`: the raw text plus the two
components the validator reads (`scheme` and `hostname`; `urlparse`
already lowercases the hostname, and the code lowercases it again). -/
structure Url where
  raw : String
  scheme : String
  hostname : Option String
  deriving DecidableEq, Repr

/-- Configuration surface of `src/config.py` as consumed by
`ai_integration.py`.  `allow_local_webhooks` is `Option Bool`: `some b`
models a module attribute `ALLOW_LOCAL_WEBHOOKS = b`, while `none` models
the attribute being absent from `config.py`, in which case
`from config import ALLOW_LOCAL_WEBHOOKS` raises `ImportError`.  The
shipped `config.py` defines no such name, see `config_actual`. -/
structure Config where
  webhook_secret : String
  n8n_url : String
  make_url : String
  allow_local_webhooks : Option Bool
  deriving DecidableEq, Repr

/-- The repository's `config.py`: `WEBHOOK_SECRET`, `N8N_WEBHOOK_URL` and
`MAKE_WEBHOOK_URL` default to the empty string, and the module defines no
`ALLOW_LOCAL_WEBHOOKS` attribute at all (grep of `src/config.py`). -/
def config_actual : Config :=
  { webhook_secret := "", n8n_url := "", make_url := "",
    allow_local_webhooks := none }

/-- Python `str.startswith` on character lists (structural recursion so
concrete instances reduce in the kernel). -/
def startsWithChars : List Char → List Char → Bool
  | _, [] => true
  | [], _ :: _ => false
  | c :: cs, p :: ps => c == p && startsWithChars cs ps

/-- Python `str.startswith`. -/
def pyStartsWith (s p : String) : Bool := startsWithChars s.data p.data

/-- Python `str.lower` (ASCII case folding suffices for the hostname and
tool-name strings this code lowercases). -/
def pyLower (s : String) : String := ⟨s.data.map Char.toLower⟩

/-- The six prefixes of the `is_localhost` check
(`ai_integration.py` line 153): `any(hostname_lower.startswith(h) ...)`. -/
def localhostPrefixes : List String :=
  ["localhost", "127.0.0.1", "0.0.0.0", "169.254.", "::1", "fe80:"]

/-- `is_localhost` from `_validate_webhook_url` (line 153). -/
def is_localhost_host (hl : String) : Bool :=
  localhostPrefixes.any (fun h => pyStartsWith hl h)

/-- The sixteen prefixes `f'172.\x7bi\x7d.' for i in range(16, 32)`
(line 160), written out. -/
def private172Prefixes : List String :=
  ["172.16.", "172.17.", "172.18.", "172.19.", "172.20.", "172.21.",
   "172.22.", "172.23.", "172.24.", "172.25.", "172.26.", "172.27.",
   "172.28.", "172.29.", "172.30.", "172.31."]

/-- `is_private` from `_validate_webhook_url` (lines 157-161):
`10.`, `192.168.`, and `172.16.` through `172.31.` string prefixes. -/
def is_private_host (hl : String) : Bool :=
  pyStartsWith hl "10." || pyStartsWith hl "192.168." ||
    private172Prefixes.any (fun p => pyStartsWith hl p)

/-- The body of `_validate_webhook_url` (lines 137-173), given the value
that `from config import ALLOW_LOCAL_WEBHOOKS` would have bound.  Scheme
check first, then hostname presence, then the textual localhost/private
classification gated by the bypass flag; every other case accepts. -/
def validate_webhook_url_body (allow_local : Bool) (u : Url) : Bool :=
  if !(u.scheme = "http" || u.scheme = "https") then false
  else
    match u.hostname with
    | none => false
    | some h =>
      let hl := pyLower h
      if (is_localhost_host hl || is_private_host hl) && !allow_local then false
      else true

/-- `_validate_webhook_url` (lines 124-173) as callable: the function
first executes `from config import ALLOW_LOCAL_WEBHOOKS` (line 135,
before the `try`), which raises `ImportError` when `config.py` does not
define the name; only then does the body run. -/
def validate_webhook_url (allow_def : Option Bool) (u : Url) : Except Unit Bool :=
  match allow_def with
  | none => .error ()
  | some b => .ok (validate_webhook_url_body b u)

/-- Re-statement of the spec's URL Safety Validator (spec.md §4.1) with
its step 6, written from the spec's words for comparison with the source
function: after the textual checks, resolve the hostname (modelled by the
`resolve` parameter); on success re-apply the loopback/private/link-local
classification to the resolved address, on failure accept. -/
def validate_url_spec_resolving (resolve : String → Option String)
    (allow_local : Bool) (u : Url) : Bool :=
  if !(u.scheme = "http" || u.scheme = "https") then false
  else
    match u.hostname with
    | none => false
    | some h =>
      let hl := pyLower h
      if allow_local then true
      else if is_localhost_host hl || is_private_host hl then false
      else
        match resolve hl with
        | some ip => !(is_localhost_host ip || is_private_host ip)
        | none => true

/-! ### Script formatter (`format_call_script`, lines 21-46) -/

/-- One lexed piece of a Python format string: a literal character or a
named replacement field. -/
inductive FmtPart where
  | lit (c : Char)
  | field (name : String)
  deriving DecidableEq, Repr

/-- The `str.format` failure modes relevant here: `KeyError` for an
unknown field name (caught by the source), and `ValueError` for malformed
brace structure (not caught by the source). -/
inductive FmtError where
  | keyError
  | valueError
  deriving DecidableEq, Repr

/-- Lexer for Python format strings restricted to plain named fields:
a doubled opening or closing brace is a literal brace, a single opening
brace starts a field name read up to the closing brace, and a stray
closing brace or unterminated field is a `ValueError`.  The second
argument is the field name currently being read, if any. -/
def parseFmtAux : List Char → Option String → Option (List FmtPart)
  | [], none => some []
  | [], some _ => none
  | '{' :: '{' :: cs, none => (parseFmtAux cs none).map (fun ps => FmtPart.lit '{' :: ps)
  | '}' :: '}' :: cs, none => (parseFmtAux cs none).map (fun ps => FmtPart.lit '}' :: ps)
  | '{' :: cs, none => parseFmtAux cs (some "")
  | '}' :: _, none => none
  | c :: cs, none => (parseFmtAux cs none).map (fun ps => FmtPart.lit c :: ps)
  | '}' :: cs, some nm => (parseFmtAux cs none).map (fun ps => FmtPart.field nm :: ps)
  | '{' :: _, some _ => none
  | c :: cs, some nm => parseFmtAux cs (some (nm.push c))

/-- Lex a whole format string. -/
def parseFmt (s : String) : Option (List FmtPart) := parseFmtAux s.data none

/-- Substitute field values into lexed parts; an unknown field name is a
`KeyError`, exactly as `str.format` raises on a missing keyword. -/
def substFmt (lookup : String → Option String) : List FmtPart → Except FmtError String
  | [] => .ok ""
  | .lit c :: ps => (substFmt lookup ps).map (fun r => String.singleton c ++ r)
  | .field nm :: ps =>
    match lookup nm with
    | none => .error .keyError
    | some v => (substFmt lookup ps).map (fun r => v ++ r)

/-- `str.format` on a template: lex, then substitute. -/
def pythonFormat (lookup : String → Option String) (t : String) : Except FmtError String :=
  match parseFmt t with
  | none => .error .valueError
  | some ps => substFmt lookup ps

/-- The slice of the `candidate_data` dict that `format_call_script`
reads.  `some v` means the key is present with rendered text `v` (a
present `None` value renders as the text `None`); `none` means the key is
absent, so `dict.get` falls back to the default. -/
structure CandData where
  name : Option String
  experience_years : Option String
  deriving DecidableEq, Repr

/-- The slice of the `job_data` dict that `format_call_script` reads. -/
structure JobData where
  job_role : Option String
  location : Option String
  company_name : Option String
  deriving DecidableEq, Repr

/-- The keyword arguments passed to `template.format(...)` (lines 36-42):
exactly five recognized names, each with its `dict.get` default. -/
def scriptLookup (cand : CandData) (job : JobData) : String → Option String :=
  fun nm =>
    if nm = "candidate_name" then some (cand.name.getD "Candidate")
    else if nm = "job_role" then some (job.job_role.getD "a position")
    else if nm = "experience_years" then some (cand.experience_years.getD "N/A")
    else if nm = "location" then some (job.location.getD "our office")
    else if nm = "company_name" then some (job.company_name.getD "our company")
    else none

/-- `DEFAULT_CALL_SCRIPT` from `src/config.py` (lines 38-45). -/
def DEFAULT_CALL_SCRIPT : String :=
  "\nHello {candidate_name},\n\nThis is regarding the {job_role} position at our company.\nWe found your profile on Naukri and would like to discuss this opportunity with you.\n\nAre you interested in exploring this opportunity?\n"

/-- `format_call_script` (lines 21-46).  `template or DEFAULT_CALL_SCRIPT`
replaces an absent or empty template by the default; a `KeyError` from
`str.format` is caught and the template string returned unchanged; any
other format failure propagates as an uncaught exception (`.error ()`). -/
def format_call_script (cand : CandData) (job : JobData)
    (template : Option String) : Except Unit String :=
  let t := match template with
    | none => DEFAULT_CALL_SCRIPT
    | some s => if s = "" then DEFAULT_CALL_SCRIPT else s
  match pythonFormat (scriptLookup cand job) t with
  | .ok s => .ok s
  | .error .keyError => .ok t
  | .error .valueError => .error ()

/-! ### Dispatch layer (`send_to_n8n`, `send_to_make`, `send_to_webhook`) -/

/-- Outcome of `requests.post`: a 2xx response with a JSON body (recording
whether that body contains an `error` key), a 2xx response with an empty
body, or a `RequestException` (timeout, connection failure, or non-2xx
turned into an exception by `raise_for_status`). -/
inductive NetResult where
  | success (bodyHasErrorKey : Bool)
  | emptySuccess
  | failure (msg : String)
  deriving DecidableEq, Repr

/-- The dict a send function returns: `response.json()` (recording whether
it carries an `error` key), the literal success marker dict, or an error
dict. -/
inductive DResult where
  | jsonBody (hasErrorKey : Bool)
  | statusSuccess
  | errMsg (msg : String)
  deriving DecidableEq, Repr

/-- Whether `'error' in response` holds for a send result (line 270). -/
def hasErrorKey : DResult → Bool
  | .jsonBody b => b
  | .statusSuccess => false
  | .errMsg _ => true

/-- The outbound JSON payload a send function builds (lines 63-71 etc.):
candidate data, script, and the secret only when one is configured.  The
wall-clock timestamp field is not modelled. -/
structure Payload where
  candidate : CandData
  script : String
  secret : Option String
  deriving DecidableEq, Repr

/-- Payload construction shared by the three send functions. -/
def build_payload (cfg : Config) (cand : CandData) (script : String) : Payload :=
  ⟨cand, script, if cfg.webhook_secret = "" then none else some cfg.webhook_secret⟩

deriving instance DecidableEq for Except

/-- Observable I/O events of a dispatch call: a validator invocation with
its outcome, or an HTTP POST of a payload to a URL. -/
inductive Ev where
  | validate (url : String) (outcome : Except Unit Bool)
  | post (url : String) (payload : Payload)
  deriving DecidableEq, Repr

/-- The shared POST-and-normalize tail of every send function (lines
73-84): exceptions become an error dict, an empty 2xx body becomes the
success marker, a JSON body is returned as-is. -/
def postAndNormalize (net : String → NetResult) (url : String) : DResult :=
  match net url with
  | .success b => .jsonBody b
  | .emptySuccess => .statusSuccess
  | .failure m => .errMsg m

/-- `send_to_n8n` (lines 48-84): an unconfigured URL yields an error dict
with no I/O; otherwise a single POST to the configured URL.  No URL
validation occurs on this path. -/
def send_to_n8n (cfg : Config) (net : String → NetResult)
    (cand : CandData) (script : String) : DResult × List Ev :=
  if cfg.n8n_url = "" then (.errMsg "N8N webhook URL not configured", [])
  else (postAndNormalize net cfg.n8n_url,
        [.post cfg.n8n_url (build_payload cfg cand script)])

/-- `send_to_make` (lines 86-122): same shape as `send_to_n8n` with the
make.com URL; again no URL validation. -/
def send_to_make (cfg : Config) (net : String → NetResult)
    (cand : CandData) (script : String) : DResult × List Ev :=
  if cfg.make_url = "" then (.errMsg "Make.com webhook URL not configured", [])
  else (postAndNormalize net cfg.make_url,
        [.post cfg.make_url (build_payload cfg cand script)])

/-- `send_to_webhook` (lines 175-212): validates the URL first.  An
`ImportError` raised by the validator propagates (only
`RequestException` is caught in this function); a rejection returns the
error dict with no I/O; acceptance performs the POST. -/
def send_to_webhook (cfg : Config) (net : String → NetResult) (u : Url)
    (cand : CandData) (script : String) : Except Unit DResult × List Ev :=
  match validate_webhook_url cfg.allow_local_webhooks u with
  | .error () => (.error (), [.validate u.raw (.error ())])
  | .ok false => (.ok (.errMsg "Invalid or unsafe webhook URL"),
      [.validate u.raw (.ok false)])
  | .ok true => (.ok (postAndNormalize net u.raw),
      [.validate u.raw (.ok true), .post u.raw (build_payload cfg cand script)])

/-- A dispatch call's event trace satisfies the spec invariant when every
POSTed URL was accepted by the validator within that same trace. -/
def dispatchSafe (evs : List Ev) : Bool :=
  evs.all (fun e => match e with
    | .post u _ => evs.contains (Ev.validate u (.ok true))
    | _ => true)

/-! ### Storage layer (`src/models.py`, `src/data_manager.py`) -/

/-- A `Candidate` row (models.py): identity and profile columns plus the
mutable outreach-status columns.  Numeric and datetime columns are carried
as rendered text / opaque timestamps since no claim computes on them; the
automatic `scraped_date`/`last_updated` bookkeeping timestamps are outside
the pure embedding. -/
structure Candidate where
  id : Int
  job_search_id : Int
  name : String
  email : Option String
  phone : Option String
  current_location : Option String
  experience_years : Option String
  current_company : Option String
  current_designation : Option String
  skills : Option String
  education : Option String
  comments : Option String
  contacted : Bool
  interested : Option Bool
  interview_scheduled : Bool
  interview_date : Option Int
  deriving DecidableEq, Repr

/-- A `CallLog` row (models.py): append-only audit record of one dispatch
or callback event. -/
structure CallLog where
  candidate_id : Int
  script_used : String
  call_status : String
  interested : Option Bool
  ai_tool_used : Option String
  notes : Option String
  deriving DecidableEq, Repr

/-- The database state the subsystem reads and writes. -/
structure DMState where
  candidates : List Candidate
  call_logs : List CallLog
  deriving DecidableEq, Repr

/-- `session.query(Candidate).get(candidate_id)`. -/
def findCandidate (s : DMState) (cid : Int) : Option Candidate :=
  s.candidates.find? (fun c => c.id = cid)

/-- The per-row effect of `update_candidate_status` (lines 147-156): each
argument that `is not None` overwrites the matching column. -/
def applyStatusUpdate (contacted : Option Bool) (interested : Option Bool)
    (interview_scheduled : Option Bool) (interview_date : Option Int)
    (comments : Option String) (c : Candidate) : Candidate :=
  { c with
    contacted := contacted.getD c.contacted,
    interested := match interested with | some b => some b | none => c.interested,
    interview_scheduled := interview_scheduled.getD c.interview_scheduled,
    interview_date := match interview_date with | some d => some d | none => c.interview_date,
    comments := match comments with | some t => some t | none => c.comments }

/-- `DataManager.update_candidate_status` (lines 124-159): a missing
candidate logs an error and writes nothing; otherwise the provided fields
overwrite the row. -/
def update_candidate_status (s : DMState) (cid : Int)
    (contacted : Option Bool) (interested : Option Bool)
    (interview_scheduled : Option Bool) (interview_date : Option Int)
    (comments : Option String) : DMState :=
  match findCandidate s cid with
  | none => s
  | some _ =>
    { s with candidates := s.candidates.map (fun c =>
        if c.id = cid then
          applyStatusUpdate contacted interested interview_scheduled
            interview_date comments c
        else c) }

/-- `DataManager.log_call` (lines 161-201): always appends one `CallLog`
row (SQLite does not enforce the foreign key, so the append succeeds even
for an unknown candidate id); additionally, when `interested is not None`
and the candidate row exists, sets `contacted = True` and overwrites
`interested` on that row. -/
def log_call (s : DMState) (cid : Int) (script_used : String)
    (call_status : String) (interested : Option Bool)
    (ai_tool_used : Option String) (notes : Option String) : DMState :=
  let s1 : DMState :=
    { s with call_logs := s.call_logs ++
        [⟨cid, script_used, call_status, interested, ai_tool_used, notes⟩] }
  match interested with
  | none => s1
  | some b =>
    match findCandidate s cid with
    | none => s1
    | some _ =>
      { s1 with candidates := s1.candidates.map (fun c =>
          if c.id = cid then { c with contacted := true, interested := some b }
          else c) }

/-! ### Callback reconciler (`process_webhook_response`, `webhook_callback`) -/

/-- The inbound callback payload fields the code reads; `some` means the
key is present in the JSON body. -/
structure WebhookData where
  candidate_id : Option Int
  call_status : Option String
  interested : Option Bool
  response : Option String
  script_used : Option String
  ai_tool : Option String
  secret : Option String
  deriving DecidableEq, Repr

/-- Result dict of `process_webhook_response`. -/
inductive ProcResult where
  | ok (candidate_id : Int)
  | err (msg : String)
  deriving DecidableEq, Repr

/-- Python `call_status or 'completed'` (line 326): `None` and the empty
string are both falsy and fall back to the default. -/
def statusOrCompleted : Option String → String
  | none => "completed"
  | some st => if st = "" then "completed" else st

/-- `AIIntegration.process_webhook_response` (lines 295-337): `if not
candidate_id` rejects an absent key and any falsy value (such as `0`);
otherwise a status update (`contacted=True`, `interested` and notes when
present) followed by one `log_call` append. -/
def process_webhook_response (s : DMState) (wd : WebhookData) :
    DMState × ProcResult :=
  match wd.candidate_id with
  | none => (s, .err "candidate_id is required")
  | some cid =>
    if cid = 0 then (s, .err "candidate_id is required")
    else
      let s1 := update_candidate_status s cid (some true) wd.interested
        none none wd.response
      let s2 := log_call s1 cid (wd.script_used.getD "")
        (statusOrCompleted wd.call_status) wd.interested wd.ai_tool wd.response
      (s2, .ok cid)

/-- HTTP result of the `/api/webhook/callback` route. -/
inductive CbResult where
  | auth401
  | bad400 (msg : String)
  | ok200 (candidate_id : Int)
  deriving DecidableEq, Repr

/-- `api.webhook_callback` (api.py lines 259-290): when a secret is
configured (non-empty) and the payload's secret field differs, respond 401
before touching any state; otherwise delegate to
`process_webhook_response` and map its error to a 400. -/
def webhook_callback (secret_cfg : String) (s : DMState) (wd : WebhookData) :
    DMState × CbResult :=
  if secret_cfg ≠ "" ∧ wd.secret ≠ some secret_cfg then (s, .auth401)
  else
    match process_webhook_response s wd with
    | (s', .err m) => (s', .bad400 m)
    | (s', .ok cid) => (s', .ok200 cid)

/-! ### Batch orchestrator (`trigger_automated_calls`, lines 214-293) -/

/-- One entry of the result list: candidate id, status
(`sent`/`failed`/`error`), and the response-or-error text. -/
structure PerResult where
  candidate_id : Int
  status : String
  detail : String
  deriving DecidableEq, Repr

/-- Stand-in for Python `str(response)` stored in the notes/result
fields; its exact text is not load-bearing for any claim. -/
def reprDResult : DResult → String
  | .jsonBody b => if b then "json body with error key" else "json body"
  | .statusSuccess => "status: success"
  | .errMsg m => "error: " ++ m

/-- The `candidate_data` dict built at lines 243-253, projected to the
keys the formatter reads: every key is present, and a `None` column value
renders as the text `None` inside `str.format`. -/
def candDataOfCandidate (c : Candidate) : CandData :=
  ⟨some c.name, some (c.experience_years.getD "None")⟩

/-- Lines 269-283: compute `sent`/`failed` from the presence of an
`error` key, append the `CallLog` row (with `interested=None`), and append
the per-candidate result. -/
def finishDispatch (s : DMState) (rs : List PerResult) (cid : Int)
    (tool script : String) (dr : DResult) : DMState × List PerResult :=
  let st := if hasErrorKey dr then "failed" else "sent"
  let s' := log_call s cid script st none (some tool) (some (reprDResult dr))
  (s', rs ++ [⟨cid, st, reprDResult dr⟩])

/-- One iteration of the `for candidate_id in candidate_ids` loop (lines
232-291): a missing candidate is skipped with no result; a formatter
exception is caught by the catch-all and recorded as an error result; the
tool branch dispatches for `n8n`, `make`, or `custom` with a truthy
webhook URL and otherwise skips with no result; an `ImportError` from the
custom path's validator is caught by the catch-all and recorded as an
error result. -/
def trigger_step (cfg : Config) (net : String → NetResult) (job : JobData)
    (tool : String) (custom_script : Option String)
    (custom_webhook : Option Url) (acc : DMState × List PerResult)
    (cid : Int) : DMState × List PerResult :=
  let (s, rs) := acc
  match findCandidate s cid with
  | none => (s, rs)
  | some c =>
    let cd := candDataOfCandidate c
    match format_call_script cd job custom_script with
    | .error () => (s, rs ++ [⟨cid, "error", "format exception"⟩])
    | .ok script =>
      let tl := pyLower tool
      if tl = "n8n" then
        finishDispatch s rs cid tool script (send_to_n8n cfg net cd script).1
      else if tl = "make" then
        finishDispatch s rs cid tool script (send_to_make cfg net cd script).1
      else if tl = "custom" then
        match custom_webhook with
        | some u =>
          if u.raw = "" then (s, rs)
          else
            match (send_to_webhook cfg net u cd script).1 with
            | .error () => (s, rs ++ [⟨cid, "error", "ImportError"⟩])
            | .ok dr => finishDispatch s rs cid tool script dr
        | none => (s, rs)
      else (s, rs)

/-- `AIIntegration.trigger_automated_calls` (lines 214-293): fold the
per-candidate step over the id list, threading the database state and
accumulating results. -/
def trigger_automated_calls (cfg : Config) (net : String → NetResult)
    (s : DMState) (candidate_ids : List Int) (job : JobData) (tool : String)
    (custom_script : Option String) (custom_webhook : Option Url) :
    DMState × List PerResult :=
  candidate_ids.foldl (trigger_step cfg net job tool custom_script custom_webhook)
    (s, [])

/-- The tool-selection argument combinations that reach a dispatch branch
rather than the skipping `else: continue` (lines 259-267). -/
def validToolSelection (tool : String) (custom_webhook : Option Url) : Bool :=
  pyLower tool = "n8n" || pyLower tool = "make" ||
    (pyLower tool = "custom" &&
      match custom_webhook with
      | some u => u.raw ≠ ""
      | none => false)

/-! ### Shared sample data for concrete instantiations -/

/-- A sample candidate row as the repository's own test data creates it. -/
def sampleCandidate : Candidate :=
  { id := 1, job_search_id := 1, name := "Test User", email := none,
    phone := none, current_location := none, experience_years := none,
    current_company := none, current_designation := none, skills := none,
    education := none, comments := none, contacted := false,
    interested := none, interview_scheduled := false, interview_date := none }

/-- A database holding exactly `sampleCandidate` and no call logs. -/
def sampleState : DMState := ⟨[sampleCandidate], []⟩

/-- A sample job dict. -/
def sampleJob : JobData := ⟨some "Python Developer", some "Bangalore", some "Tech Corp"⟩

/-! ### Claims about the URL Safety Validator and dispatch -/

/-- C2: the claim says the Validator resolves hostnames and re-applies the
internal-address classification to the resolved address.  Counterexample:
for `http://evil.example.com/h` under a resolver mapping that hostname to
`127.0.0.1`, the spec's algorithm (with its step 6) rejects, but the
source function's body accepts — it contains no resolution step at all —
and the function as actually callable raises an `ImportError` instead. -/
theorem C2_counterexample :
    validate_url_spec_resolving
        (fun h => if h = "evil.example.com" then some "127.0.0.1" else none) false
        ⟨"http://evil.example.com/h", "http", some "evil.example.com"⟩ = false
    ∧ validate_webhook_url_body false
        ⟨"http://evil.example.com/h", "http", some "evil.example.com"⟩ = true
    ∧ validate_webhook_url config_actual.allow_local_webhooks
        ⟨"http://evil.example.com/h", "http", some "evil.example.com"⟩ = .error () :=
  ⟨by decide, by decide, rfl⟩

/-- C2 (amended): the Validator performs no hostname resolution — its body
accepts every http/https URL whose present hostname does not textually
match the loopback/link-local/private patterns, regardless of any DNS
state (and the callable function raises before the body when the config
flag is undefined, see C3). -/
theorem C2_no_dns_accepts (b : Bool) (u : Url) (host : String)
    (hhost : u.hostname = some host)
    (hscheme : u.scheme = "http" ∨ u.scheme = "https")
    (hloc : is_localhost_host (pyLower host) = false)
    (hpriv : is_private_host (pyLower host) = false) :
    validate_webhook_url_body b u = true := by
  unfold validate_webhook_url_body
  rcases hscheme with hs | hs <;> rw [hs, hhost] <;> simp [hloc, hpriv]

/-- Witness for C2: the amended theorem applied to the rebinding URL. -/
theorem C2_witness :
    (⟨"http://evil.example.com/h", "http", some "evil.example.com"⟩ : Url).hostname
        = some "evil.example.com"
    ∧ is_localhost_host (pyLower "evil.example.com") = false
    ∧ is_private_host (pyLower "evil.example.com") = false
    ∧ validate_webhook_url_body false
        ⟨"http://evil.example.com/h", "http", some "evil.example.com"⟩ = true :=
  ⟨rfl, by decide, by decide,
   C2_no_dns_accepts false _ "evil.example.com" rfl (Or.inl rfl) (by decide) (by decide)⟩

/-- C3: with the repository's configuration every validator call raises
`ImportError` (`config.py` defines no `ALLOW_LOCAL_WEBHOOKS`), so the
claimed reject/accept behaviour never executes; the function body, given
the flag value the import was meant to bind, does reject loopback and
private hostnames when the flag is off and accept them when it is on. -/
theorem C3_theorem :
    validate_webhook_url config_actual.allow_local_webhooks
        ⟨"http://127.0.0.1:9000/hook", "http", some "127.0.0.1"⟩ = .error ()
    ∧ validate_webhook_url_body false
        ⟨"http://127.0.0.1:9000/hook", "http", some "127.0.0.1"⟩ = false
    ∧ validate_webhook_url_body true
        ⟨"http://127.0.0.1:9000/hook", "http", some "127.0.0.1"⟩ = true
    ∧ validate_webhook_url_body false
        ⟨"http://192.168.1.5/hook", "http", some "192.168.1.5"⟩ = false
    ∧ validate_webhook_url_body true
        ⟨"http://192.168.1.5/hook", "http", some "192.168.1.5"⟩ = true :=
  ⟨rfl, by decide, by decide, by decide, by decide⟩

/-- C4: for a non-http/https scheme the claim says the Validator rejects
regardless of the bypass flag.  The body indeed returns false for both
flag values (the scheme check precedes the bypass), but the callable
function raises `ImportError` before reaching it under the repository's
configuration. -/
theorem C4_theorem :
    validate_webhook_url config_actual.allow_local_webhooks
        ⟨"ftp://example.com/x", "ftp", some "example.com"⟩ = .error ()
    ∧ validate_webhook_url_body false
        ⟨"ftp://example.com/x", "ftp", some "example.com"⟩ = false
    ∧ validate_webhook_url_body true
        ⟨"ftp://example.com/x", "ftp", some "example.com"⟩ = false :=
  ⟨rfl, by decide, by decide⟩

/-- C1: the claim says every dispatch POST is guarded by the Validator.
Counterexample: `send_to_n8n` POSTs its configured URL with no validator
invocation in its trace — here a URL the validator body itself classifies
as internal. -/
theorem C1_counterexample :
    (send_to_n8n ⟨"", "http://127.0.0.1:9000/hook", "", none⟩
        (fun _ => .emptySuccess) ⟨some "John Doe", none⟩ "script").2
      = [Ev.post "http://127.0.0.1:9000/hook"
          ⟨⟨some "John Doe", none⟩, "script", none⟩]
    ∧ dispatchSafe (send_to_n8n ⟨"", "http://127.0.0.1:9000/hook", "", none⟩
        (fun _ => .emptySuccess) ⟨some "John Doe", none⟩ "script").2 = false
    ∧ validate_webhook_url_body false
        ⟨"http://127.0.0.1:9000/hook", "http", some "127.0.0.1"⟩ = false :=
  ⟨rfl, by decide, by decide⟩

/-- C1 (amended): only the custom-webhook dispatch is guarded — its trace
always satisfies the validate-before-POST invariant, it POSTs nothing
unless the validator accepted, and a rejection yields the validation-error
dict; the n8n and make dispatches POST their configured URL (when
non-empty) without any validator invocation. -/
theorem C1_custom_only_validated (cfg : Config) (net : String → NetResult)
    (u : Url) (cand : CandData) (script : String) :
    dispatchSafe (send_to_webhook cfg net u cand script).2 = true
    ∧ (validate_webhook_url cfg.allow_local_webhooks u ≠ .ok true →
        ((send_to_webhook cfg net u cand script).2.all
          (fun e => match e with | .post _ _ => false | _ => true)) = true)
    ∧ (validate_webhook_url cfg.allow_local_webhooks u = .ok false →
        (send_to_webhook cfg net u cand script).1
          = .ok (.errMsg "Invalid or unsafe webhook URL"))
    ∧ (cfg.n8n_url ≠ "" → (send_to_n8n cfg net cand script).2
        = [.post cfg.n8n_url (build_payload cfg cand script)])
    ∧ (cfg.make_url ≠ "" → (send_to_make cfg net cand script).2
        = [.post cfg.make_url (build_payload cfg cand script)]) := by
  refine ⟨?_, ?_, ?_, ?_, ?_⟩
  · unfold send_to_webhook
    rcases hv : validate_webhook_url cfg.allow_local_webhooks u with e | b
    · simp [dispatchSafe]
    · cases b <;> simp [dispatchSafe]
  · intro hne
    unfold send_to_webhook
    rcases hv : validate_webhook_url cfg.allow_local_webhooks u with e | b
    · simp
    · cases b
      · simp
      · exact absurd hv hne
  · intro hv
    unfold send_to_webhook
    rw [hv]
  · intro hne
    unfold send_to_n8n
    rw [if_neg hne]
  · intro hne
    unfold send_to_make
    rw [if_neg hne]

/-- Witness for C1: the amended theorem instantiated, with a rejecting
validator call on the custom path and a configured n8n URL. -/
theorem C1_witness :
    validate_webhook_url (some false)
        ⟨"http://127.0.0.1:9000/hook", "http", some "127.0.0.1"⟩ = .ok false
    ∧ (send_to_webhook ⟨"", "", "", some false⟩ (fun _ => .emptySuccess)
          ⟨"http://127.0.0.1:9000/hook", "http", some "127.0.0.1"⟩
          ⟨some "John Doe", none⟩ "s").1
        = .ok (.errMsg "Invalid or unsafe webhook URL")
    ∧ ("https://hooks.example.com/a" : String) ≠ ""
    ∧ (send_to_n8n ⟨"", "https://hooks.example.com/a", "", some false⟩
          (fun _ => .emptySuccess) ⟨some "John Doe", none⟩ "s").2
        = [.post "https://hooks.example.com/a"
            (build_payload ⟨"", "https://hooks.example.com/a", "", some false⟩
              ⟨some "John Doe", none⟩ "s")] :=
  ⟨by decide,
   (C1_custom_only_validated ⟨"", "", "", some false⟩ (fun _ => .emptySuccess)
      ⟨"http://127.0.0.1:9000/hook", "http", some "127.0.0.1"⟩
      ⟨some "John Doe", none⟩ "s").2.2.1 (by decide),
   by decide,
   (C1_custom_only_validated ⟨"", "https://hooks.example.com/a", "", some false⟩
      (fun _ => .emptySuccess)
      ⟨"http://127.0.0.1:9000/hook", "http", some "127.0.0.1"⟩
      ⟨some "John Doe", none⟩ "s").2.2.2.1 (by decide)⟩

/-! ### Claims about the callback reconciler and the storage layer -/

/-- C5: when a secret is configured and the payload's secret does not
match, the callback route answers with the authorization error and the
database state — candidates and call logs alike — is unchanged. -/
theorem C5_wrong_secret_no_mutation (secret_cfg : String) (s : DMState)
    (wd : WebhookData) (hcfg : secret_cfg ≠ "")
    (hmis : wd.secret ≠ some secret_cfg) :
    webhook_callback secret_cfg s wd = (s, .auth401) := by
  unfold webhook_callback
  rw [if_pos ⟨hcfg, hmis⟩]

/-- Witness for C5 at a concrete secret, payload and database. -/
theorem C5_witness :
    ("webhook_secret" : String) ≠ ""
    ∧ (⟨some 1, none, none, none, none, none, some "wrong"⟩ : WebhookData).secret
        ≠ some "webhook_secret"
    ∧ webhook_callback "webhook_secret" sampleState
        ⟨some 1, none, none, none, none, none, some "wrong"⟩
      = (sampleState, .auth401) :=
  ⟨by decide, by decide,
   C5_wrong_secret_no_mutation "webhook_secret" sampleState
     ⟨some 1, none, none, none, none, none, some "wrong"⟩ (by decide) (by decide)⟩

/-- C9: a present-but-falsy `candidate_id` (the integer 0) takes the same
`if not candidate_id` branch as an absent one: identical validation error,
no state mutation. -/
theorem C9_falsy_candidate_id (s : DMState) (wd wd' : WebhookData)
    (h0 : wd.candidate_id = some 0) (habs : wd'.candidate_id = none) :
    process_webhook_response s wd = (s, .err "candidate_id is required")
    ∧ process_webhook_response s wd' = (s, .err "candidate_id is required") := by
  constructor
  · unfold process_webhook_response
    rw [h0]
    simp
  · unfold process_webhook_response
    rw [habs]

/-- Witness for C9 at concrete payloads. -/
theorem C9_witness :
    (⟨some 0, some "completed", some true, none, none, none, none⟩ : WebhookData).candidate_id
        = some 0
    ∧ (⟨none, none, none, none, none, none, none⟩ : WebhookData).candidate_id = none
    ∧ process_webhook_response sampleState
        ⟨some 0, some "completed", some true, none, none, none, none⟩
      = (sampleState, .err "candidate_id is required")
    ∧ process_webhook_response sampleState ⟨none, none, none, none, none, none, none⟩
      = (sampleState, .err "candidate_id is required") := by
  refine ⟨rfl, rfl, ?_⟩
  exact C9_falsy_candidate_id sampleState
    ⟨some 0, some "completed", some true, none, none, none, none⟩
    ⟨none, none, none, none, none, none, none⟩ rfl rfl

/-- C10: `log_call` with `interested` provided and an existing candidate
appends exactly the one `CallLog` row and updates only `contacted` and
`interested` on exactly the matching candidate row; with `interested`
absent it appends the row and leaves every candidate untouched. -/
theorem C10_log_call_effects (s : DMState) (cid : Int) (scr st : String)
    (b : Bool) (ai notes : Option String) (c : Candidate)
    (hfind : findCandidate s cid = some c) :
    (log_call s cid scr st (some b) ai notes).candidates
      = s.candidates.map (fun x => if x.id = cid then
          { x with contacted := true, interested := some b } else x)
    ∧ (log_call s cid scr st (some b) ai notes).call_logs
      = s.call_logs ++ [⟨cid, scr, st, some b, ai, notes⟩]
    ∧ (log_call s cid scr st none ai notes).candidates = s.candidates
    ∧ (log_call s cid scr st none ai notes).call_logs
      = s.call_logs ++ [⟨cid, scr, st, none, ai, notes⟩] := by
  refine ⟨?_, ?_, ?_, ?_⟩ <;> unfold log_call <;> simp [hfind]

/-- Witness for C10 at the sample database. -/
theorem C10_witness :
    findCandidate sampleState 1 = some sampleCandidate
    ∧ (log_call sampleState 1 "scr" "sent" (some true) (some "n8n") none).candidates
      = sampleState.candidates.map (fun x => if x.id = 1 then
          { x with contacted := true, interested := some true } else x)
    ∧ (log_call sampleState 1 "scr" "sent" none (some "n8n") none).candidates
      = sampleState.candidates := by
  have h := C10_log_call_effects sampleState 1 "scr" "sent" true (some "n8n") none
    sampleCandidate rfl
  exact ⟨rfl, h.1, h.2.2.1⟩

/-! ### Claim about the script formatter -/

/-- The placeholder names `format_call_script` supplies to
`template.format` (lines 36-42). -/
def recognizedPlaceholders : List String :=
  ["candidate_name", "job_role", "experience_years", "location", "company_name"]

/-- The keyword map covers exactly the recognized placeholder names. -/
theorem scriptLookup_eq_none (cand : CandData) (job : JobData) (nm : String)
    (h : nm ∉ recognizedPlaceholders) : scriptLookup cand job nm = none := by
  unfold scriptLookup
  simp only [recognizedPlaceholders, List.mem_cons, List.not_mem_nil, or_false,
    not_or] at h
  obtain ⟨h1, h2, h3, h4, h5⟩ := h
  simp [h1, h2, h3, h4, h5]

/-- Substitution fails with a `KeyError` as soon as the parts reference a
name the keyword map does not cover. -/
theorem substFmt_unknown_key (lookup : String → Option String)
    (ps : List FmtPart) (nm : String) (hmem : FmtPart.field nm ∈ ps)
    (hnone : lookup nm = none) :
    substFmt lookup ps = .error .keyError := by
  induction ps with
  | nil => cases hmem
  | cons p t ih =>
    cases p with
    | lit c =>
      have ht : FmtPart.field nm ∈ t := by
        rcases List.mem_cons.mp hmem with h | h
        · cases h
        · exact h
      unfold substFmt
      rw [ih ht]
      rfl
    | field nm' =>
      rcases List.mem_cons.mp hmem with h | h
      · cases h
        unfold substFmt
        rw [hnone]
      · unfold substFmt
        cases hl : lookup nm' with
        | none => rfl
        | some v =>
          rw [ih h]
          rfl

/-- C8: a template referencing any placeholder name outside the
recognized set makes `str.format` raise `KeyError`, which
`format_call_script` catches, returning the template text unchanged
instead of failing. -/
theorem C8_unknown_placeholder (cand : CandData) (job : JobData)
    (t : String) (ps : List FmtPart) (nm : String)
    (hparse : parseFmt t = some ps)
    (hmem : FmtPart.field nm ∈ ps)
    (hunk : nm ∉ recognizedPlaceholders) :
    format_call_script cand job (some t) = .ok t := by
  have hnone := scriptLookup_eq_none cand job nm hunk
  have hsub := substFmt_unknown_key (scriptLookup cand job) ps nm hmem hnone
  have ht : t ≠ "" := by
    intro he
    subst he
    have h0 : (some ([] : List FmtPart)) = some ps := hparse
    cases h0
    exact absurd hmem (List.not_mem_nil _)
  unfold format_call_script pythonFormat
  simp only [ht, if_false, ite_false]
  rw [hparse]
  rw [show (match some ps with
      | none => Except.error FmtError.valueError
      | some ps => substFmt (scriptLookup cand job) ps)
      = Except.error FmtError.keyError from hsub]

/-- Witness for C8: a template with the unknown placeholder `foo`. -/
theorem C8_witness :
    parseFmt "Hi {foo}" = some [.lit 'H', .lit 'i', .lit ' ', .field "foo"]
    ∧ FmtPart.field "foo" ∈
        [FmtPart.lit 'H', FmtPart.lit 'i', FmtPart.lit ' ', FmtPart.field "foo"]
    ∧ "foo" ∉ recognizedPlaceholders
    ∧ format_call_script ⟨none, none⟩ ⟨none, none, none⟩ (some "Hi {foo}")
        = .ok "Hi {foo}" :=
  ⟨by decide, by decide, by decide,
   C8_unknown_placeholder ⟨none, none⟩ ⟨none, none, none⟩ "Hi {foo}"
     [FmtPart.lit 'H', FmtPart.lit 'i', FmtPart.lit ' ', FmtPart.field "foo"]
     "foo" (by decide) (by decide) (by decide)⟩

/-! ### Claim C6: successful callback reconciliation -/

/-- Updating the row matching an id commutes with row lookup when the
update preserves ids. -/
theorem find?_map_update (l : List Candidate) (cid : Int)
    (g : Candidate → Candidate) (hg : ∀ c, (g c).id = c.id) :
    (l.map (fun c => if c.id = cid then g c else c)).find? (fun c => c.id = cid)
      = (l.find? (fun c => c.id = cid)).map g := by
  induction l with
  | nil => rfl
  | cons c t ih =>
    by_cases hc : c.id = cid
    · simp [List.find?_cons, hc, hg]
    · simp [List.find?_cons, hc, ih]

/-- Two successive updates of the row matching an id collapse to one when
the first update preserves ids. -/
theorem map_update_update (l : List Candidate) (cid : Int)
    (f g : Candidate → Candidate) (hf : ∀ c, (f c).id = c.id) :
    (l.map (fun c => if c.id = cid then f c else c)).map
        (fun c => if c.id = cid then g c else c)
      = l.map (fun c => if c.id = cid then g (f c) else c) := by
  rw [List.map_map]
  apply List.map_congr_left
  intro c _
  by_cases hc : c.id = cid
  · simp [Function.comp, hc, hf]
  · simp [Function.comp, hc]

/-- `log_call` always appends exactly one row to the call log. -/
theorem log_call_call_logs (s : DMState) (cid : Int) (scr st : String)
    (i : Option Bool) (ai notes : Option String) :
    (log_call s cid scr st i ai notes).call_logs
      = s.call_logs ++ [⟨cid, scr, st, i, ai, notes⟩] := by
  unfold log_call
  cases i with
  | none => rfl
  | some b =>
    dsimp only
    cases findCandidate s cid with
    | none => rfl
    | some c => rfl

/-- With `interested` absent, `log_call` leaves the candidate table
untouched. -/
theorem log_call_candidates_none (s : DMState) (cid : Int) (scr st : String)
    (ai notes : Option String) :
    (log_call s cid scr st none ai notes).candidates = s.candidates := rfl

/-- With `interested` provided and the candidate found, `log_call` updates
`contacted` and `interested` on the matching row. -/
theorem log_call_candidates_some (s : DMState) (cid : Int) (scr st : String)
    (b : Bool) (ai notes : Option String) (c : Candidate)
    (hfind : findCandidate s cid = some c) :
    (log_call s cid scr st (some b) ai notes).candidates
      = s.candidates.map (fun x => if x.id = cid then
          { x with contacted := true, interested := some b } else x) := by
  unfold log_call
  dsimp only
  rw [hfind]

/-- C6 (amended): a callback passing the secret check with an absent
`candidate_id` yields the validation error; with a present, non-falsy id
of an existing candidate it marks the candidate contacted, overwrites
`interested` and the comments when present, and appends exactly one
`CallLog` row whose status is the payload's reported status, defaulting to
`completed` when that status is absent or empty (Python truthiness of
`call_status or 'completed'`). -/
theorem C6_callback_updates (s : DMState) (wd : WebhookData) :
    (wd.candidate_id = none →
      process_webhook_response s wd = (s, .err "candidate_id is required"))
    ∧ (∀ cid c, wd.candidate_id = some cid → cid ≠ 0 →
        findCandidate s cid = some c →
        (process_webhook_response s wd).2 = .ok cid
        ∧ (process_webhook_response s wd).1.call_logs
            = s.call_logs ++ [⟨cid, wd.script_used.getD "",
                statusOrCompleted wd.call_status, wd.interested, wd.ai_tool,
                wd.response⟩]
        ∧ (process_webhook_response s wd).1.candidates
            = s.candidates.map (fun x => if x.id = cid then
                { x with
                  contacted := true,
                  interested := (match wd.interested with
                    | some b => some b
                    | none => x.interested),
                  comments := (match wd.response with
                    | some txt => some txt
                    | none => x.comments) }
                else x)) := by
  constructor
  · intro habs
    unfold process_webhook_response
    rw [habs]
  · intro cid c hcid hc0 hfind
    have hid : ∀ x : Candidate,
        ((applyStatusUpdate (some true) wd.interested none none wd.response) x).id
          = x.id := fun _ => rfl
    have hfind' : s.candidates.find? (fun x => x.id = cid) = some c := hfind
    have hpr : process_webhook_response s wd
        = (log_call
            ⟨s.candidates.map (fun x => if x.id = cid then
                applyStatusUpdate (some true) wd.interested none none wd.response x
              else x), s.call_logs⟩
            cid (wd.script_used.getD "") (statusOrCompleted wd.call_status)
            wd.interested wd.ai_tool wd.response, .ok cid) := by
      unfold process_webhook_response
      rw [hcid]
      dsimp only
      rw [if_neg hc0]
      unfold update_candidate_status
      rw [hfind]
    have hfc : findCandidate
        ⟨s.candidates.map (fun x => if x.id = cid then
            applyStatusUpdate (some true) wd.interested none none wd.response x
          else x), s.call_logs⟩ cid
        = some (applyStatusUpdate (some true) wd.interested none none
            wd.response c) := by
      unfold findCandidate
      rw [find?_map_update s.candidates cid _ hid, hfind']
      rfl
    rw [hpr]
    refine ⟨rfl, ?_, ?_⟩
    · rw [log_call_call_logs]
    · cases hint : wd.interested with
      | none =>
        rw [hint] at hfc
        rw [log_call_candidates_none]
        apply List.map_congr_left
        intro x _
        by_cases hx : x.id = cid
        · simp [hx, applyStatusUpdate]
        · simp [hx]
      | some b =>
        rw [hint] at hfc
        rw [log_call_candidates_some _ _ _ _ _ _ _ _ hfc]
        dsimp only
        rw [map_update_update s.candidates cid
          (applyStatusUpdate (some true) (some b) none none wd.response)
          (fun x => { x with contacted := true, interested := some b })
          (fun _ => rfl)]
        apply List.map_congr_left
        intro x _
        by_cases hx : x.id = cid
        · simp [hx, applyStatusUpdate]
        · simp [hx]

/-- The callback payload the repository's own test sends (plus the
reported status field). -/
def sampleCallback : WebhookData :=
  ⟨some 1, some "completed", some true, some "Very interested in the position",
   none, none, none⟩

/-- Witness for C6: the amended theorem at the sample database and the
test payload. -/
theorem C6_witness :
    sampleCallback.candidate_id = some 1
    ∧ ((1 : Int) ≠ 0)
    ∧ findCandidate sampleState 1 = some sampleCandidate
    ∧ (process_webhook_response sampleState sampleCallback).2 = .ok 1
    ∧ (process_webhook_response sampleState sampleCallback).1.call_logs
        = sampleState.call_logs ++ [⟨1, "", "completed", some true, none,
            some "Very interested in the position"⟩]
    ∧ (process_webhook_response sampleState sampleCallback).1.candidates
        = sampleState.candidates.map (fun x => if x.id = 1 then
            { x with
              contacted := true,
              interested := some true,
              comments := some "Very interested in the position" }
            else x) := by
  have h := (C6_callback_updates sampleState sampleCallback).2 1 sampleCandidate
    rfl (by decide) rfl
  exact ⟨rfl, by decide, rfl, h.1, h.2.1, h.2.2⟩

/-- C6 counterexample to the claim as stated: a payload whose reported
call status is the empty string produces a `CallLog` tagged `completed`,
not the reported (empty) status. -/
theorem C6_counterexample :
    (⟨some 1, some "", some true, none, none, none, none⟩ : WebhookData).call_status
        = some ""
    ∧ ((process_webhook_response sampleState
          ⟨some 1, some "", some true, none, none, none, none⟩).1.call_logs.map
            (fun l => l.call_status)) = ["completed"] :=
  ⟨rfl, by decide⟩

/-! ### Claim C7: batch isolation in `trigger_automated_calls` -/

/-- `findCandidate` reads only the candidate table. -/
theorem findCandidate_congr (s s' : DMState) (hc : s'.candidates = s.candidates)
    (cid : Int) : findCandidate s' cid = findCandidate s cid := by
  unfold findCandidate
  rw [hc]

/-- One loop iteration never changes the candidate table (its only write
is a `log_call` with `interested=None`). -/
theorem trigger_step_candidates (cfg : Config) (net : String → NetResult)
    (job : JobData) (tool : String) (cs : Option String) (cw : Option Url)
    (s : DMState) (rs : List PerResult) (cid : Int) :
    (trigger_step cfg net job tool cs cw (s, rs) cid).1.candidates
      = s.candidates := by
  unfold trigger_step finishDispatch
  dsimp only
  cases findCandidate s cid with
  | none => rfl
  | some c =>
    dsimp only
    cases format_call_script (candDataOfCandidate c) job cs with
    | error e => rfl
    | ok script =>
      dsimp only
      split
      · rfl
      · split
        · rfl
        · split
          · cases cw with
            | none => rfl
            | some u =>
              dsimp only
              split
              · rfl
              · cases (send_to_webhook cfg net u (candDataOfCandidate c) script).1 with
                | error e => rfl
                | ok dr => rfl
          · rfl

/-- A missing candidate is skipped entirely: no result, no state change. -/
theorem trigger_step_of_not_found (cfg : Config) (net : String → NetResult)
    (job : JobData) (tool : String) (cs : Option String) (cw : Option Url)
    (s : DMState) (rs : List PerResult) (cid : Int)
    (hnone : findCandidate s cid = none) :
    trigger_step cfg net job tool cs cw (s, rs) cid = (s, rs) := by
  unfold trigger_step
  dsimp only
  rw [hnone]

/-- Each iteration either appends nothing or appends exactly one result
carrying this candidate id and one of the three statuses — it never
removes or edits earlier results and never escapes the loop. -/
theorem trigger_step_results (cfg : Config) (net : String → NetResult)
    (job : JobData) (tool : String) (cs : Option String) (cw : Option Url)
    (s : DMState) (rs : List PerResult) (cid : Int) :
    (trigger_step cfg net job tool cs cw (s, rs) cid).2 = rs
    ∨ ∃ r, (trigger_step cfg net job tool cs cw (s, rs) cid).2 = rs ++ [r]
        ∧ r.candidate_id = cid
        ∧ r.status ∈ (["sent", "failed", "error"] : List String) := by
  unfold trigger_step finishDispatch
  dsimp only
  cases findCandidate s cid with
  | none => exact Or.inl rfl
  | some c =>
    dsimp only
    cases format_call_script (candDataOfCandidate c) job cs with
    | error e => exact Or.inr ⟨_, rfl, rfl, by simp⟩
    | ok script =>
      dsimp only
      split
      · right
        refine ⟨_, rfl, rfl, ?_⟩
        dsimp only
        split <;> simp
      · split
        · right
          refine ⟨_, rfl, rfl, ?_⟩
          dsimp only
          split <;> simp
        · split
          · cases cw with
            | none => exact Or.inl rfl
            | some u =>
              dsimp only
              split
              · exact Or.inl rfl
              · cases (send_to_webhook cfg net u (candDataOfCandidate c) script).1 with
                | error e => exact Or.inr ⟨_, rfl, rfl, by simp⟩
                | ok dr =>
                  right
                  refine ⟨_, rfl, rfl, ?_⟩
                  dsimp only
                  split <;> simp
          · exact Or.inl rfl

/-- Under a valid tool selection, an existing candidate always yields
exactly one appended result tagged with its id. -/
theorem trigger_step_of_found_valid (cfg : Config) (net : String → NetResult)
    (job : JobData) (tool : String) (cs : Option String) (cw : Option Url)
    (s : DMState) (rs : List PerResult) (cid : Int) (c : Candidate)
    (hvalid : validToolSelection tool cw = true)
    (hfind : findCandidate s cid = some c) :
    ∃ r, (trigger_step cfg net job tool cs cw (s, rs) cid).2 = rs ++ [r]
        ∧ r.candidate_id = cid := by
  unfold trigger_step finishDispatch
  dsimp only
  rw [hfind]
  dsimp only
  cases format_call_script (candDataOfCandidate c) job cs with
  | error e => exact ⟨_, rfl, rfl⟩
  | ok script =>
    dsimp only
    unfold validToolSelection at hvalid
    by_cases h1 : pyLower tool = "n8n"
    · rw [if_pos h1]
      exact ⟨_, rfl, rfl⟩
    · rw [if_neg h1]
      by_cases h2 : pyLower tool = "make"
      · rw [if_pos h2]
        exact ⟨_, rfl, rfl⟩
      · rw [if_neg h2]
        simp only [h1, h2, decide_eq_true_eq, Bool.false_or, decide_False,
          Bool.and_eq_true, decide_eq_true_iff] at hvalid
        obtain ⟨h3, h4⟩ := hvalid
        rw [if_pos h3]
        cases cw with
        | none => cases h4
        | some u =>
          dsimp only
          simp only [decide_eq_true_eq] at h4
          rw [if_neg (by simpa using h4)]
          cases (send_to_webhook cfg net u (candDataOfCandidate c) script).1 with
          | error e => exact ⟨_, rfl, rfl⟩
          | ok dr => exact ⟨_, rfl, rfl⟩

/-- The loop never touches the candidate table. -/
theorem trigger_fold_candidates (cfg : Config) (net : String → NetResult)
    (job : JobData) (tool : String) (cs : Option String) (cw : Option Url) :
    ∀ (ids : List Int) (s : DMState) (rs : List PerResult),
      ((ids.foldl (trigger_step cfg net job tool cs cw) (s, rs)).1).candidates
        = s.candidates := by
  intro ids
  induction ids with
  | nil => intro s rs; rfl
  | cons i t ih =>
    intro s rs
    rw [List.foldl_cons]
    rcases hstep : trigger_step cfg net job tool cs cw (s, rs) i with ⟨s1, rs1⟩
    have h1 := trigger_step_candidates cfg net job tool cs cw s rs i
    rw [hstep] at h1
    rw [ih s1 rs1]
    exact h1

/-- The result list grows by at most one entry per input id. -/
theorem trigger_fold_length (cfg : Config) (net : String → NetResult)
    (job : JobData) (tool : String) (cs : Option String) (cw : Option Url) :
    ∀ (ids : List Int) (s : DMState) (rs : List PerResult),
      ((ids.foldl (trigger_step cfg net job tool cs cw) (s, rs)).2).length
        ≤ rs.length + ids.length := by
  intro ids
  induction ids with
  | nil => intro s rs; simp
  | cons i t ih =>
    intro s rs
    rw [List.foldl_cons]
    rcases hstep : trigger_step cfg net job tool cs cw (s, rs) i with ⟨s1, rs1⟩
    have hd := trigger_step_results cfg net job tool cs cw s rs i
    rw [hstep] at hd
    have hlen : rs1.length ≤ rs.length + 1 := by
      rcases hd with h | ⟨r, h, _, _⟩
      · simp at h
        simp [h]
      · simp at h
        simp [h]
    calc ((t.foldl (trigger_step cfg net job tool cs cw) (s1, rs1)).2).length
        ≤ rs1.length + t.length := ih s1 rs1
      _ ≤ (rs.length + 1) + t.length := by omega
      _ = rs.length + (i :: t).length := by simp; omega

/-- Under a valid tool selection the produced ids are exactly the input
ids whose candidate exists, in order. -/
theorem trigger_fold_map (cfg : Config) (net : String → NetResult)
    (job : JobData) (tool : String) (cs : Option String) (cw : Option Url)
    (hvalid : validToolSelection tool cw = true) :
    ∀ (ids : List Int) (s : DMState) (rs : List PerResult),
      ((ids.foldl (trigger_step cfg net job tool cs cw) (s, rs)).2).map
          (fun r => r.candidate_id)
        = rs.map (fun r => r.candidate_id)
          ++ ids.filter (fun i => (findCandidate s i).isSome) := by
  intro ids
  induction ids with
  | nil => intro s rs; simp
  | cons i t ih =>
    intro s rs
    rw [List.foldl_cons, List.filter_cons]
    cases hfind : findCandidate s i with
    | none =>
      rw [trigger_step_of_not_found cfg net job tool cs cw s rs i hfind]
      rw [ih s rs]
      simp
    | some c =>
      obtain ⟨r, hr, hrc⟩ :=
        trigger_step_of_found_valid cfg net job tool cs cw s rs i c hvalid hfind
      rcases hstep : trigger_step cfg net job tool cs cw (s, rs) i with ⟨s1, rs1⟩
      rw [hstep] at hr
      simp only at hr
      have hcand : s1.candidates = s.candidates := by
        have h := trigger_step_candidates cfg net job tool cs cw s rs i
        rw [hstep] at h
        exact h
      have hfilter : t.filter (fun j => (findCandidate s1 j).isSome)
          = t.filter (fun j => (findCandidate s j).isSome) := by
        apply List.filter_congr
        intro j _
        rw [findCandidate_congr s s1 hcand j]
      rw [ih s1 rs1, hfilter, hr]
      simp [hrc, hfind]

/-- Every produced result refers to an input id and carries one of the
three statuses. -/
theorem trigger_fold_mem (cfg : Config) (net : String → NetResult)
    (job : JobData) (tool : String) (cs : Option String) (cw : Option Url) :
    ∀ (ids : List Int) (s : DMState) (rs : List PerResult) (r : PerResult),
      r ∈ (ids.foldl (trigger_step cfg net job tool cs cw) (s, rs)).2 →
      r ∈ rs ∨ (r.candidate_id ∈ ids
        ∧ r.status ∈ (["sent", "failed", "error"] : List String)) := by
  intro ids
  induction ids with
  | nil => intro s rs r hr; exact Or.inl hr
  | cons i t ih =>
    intro s rs r hr
    rw [List.foldl_cons] at hr
    rcases hstep : trigger_step cfg net job tool cs cw (s, rs) i with ⟨s1, rs1⟩
    rw [hstep] at hr
    have hd := trigger_step_results cfg net job tool cs cw s rs i
    rw [hstep] at hd
    simp only at hd
    rcases ih s1 rs1 r hr with hmem | ⟨hin, hst⟩
    · rcases hd with h | ⟨r0, h, hc0, hs0⟩
      · exact Or.inl (h ▸ hmem)
      · have hra : r ∈ rs ++ [r0] := h ▸ hmem
        rcases List.mem_append.mp hra with h1 | h1
        · exact Or.inl h1
        · have he : r = r0 := List.mem_singleton.mp h1
          right
          constructor
          · rw [he, hc0]
            exact List.mem_cons_self _ _
          · rw [he]
            exact hs0
    · exact Or.inr ⟨List.mem_cons_of_mem _ hin, hst⟩

/-- C7 (amended): the batch call is total (never raises), returns at most
one result per input id, under a valid tool selection returns exactly one
result per existing input id (so ids are omitted only for missing
candidates — or, refuting the claim as stated, when the tool selection is
invalid), and every result carries an input id with status `sent`,
`failed` or `error`. -/
theorem C7_batch_isolation (cfg : Config) (net : String → NetResult)
    (s : DMState) (ids : List Int) (job : JobData) (tool : String)
    (cs : Option String) (cw : Option Url) :
    ((trigger_automated_calls cfg net s ids job tool cs cw).2).length ≤ ids.length
    ∧ (validToolSelection tool cw = true →
        ((trigger_automated_calls cfg net s ids job tool cs cw).2).map
            (fun r => r.candidate_id)
          = ids.filter (fun i => (findCandidate s i).isSome))
    ∧ (∀ r ∈ (trigger_automated_calls cfg net s ids job tool cs cw).2,
        r.candidate_id ∈ ids
        ∧ r.status ∈ (["sent", "failed", "error"] : List String)) := by
  unfold trigger_automated_calls
  refine ⟨?_, ?_, ?_⟩
  · have h := trigger_fold_length cfg net job tool cs cw ids s []
    simpa using h
  · intro hv
    have h := trigger_fold_map cfg net job tool cs cw hv ids s []
    simpa using h
  · intro r hr
    rcases trigger_fold_mem cfg net job tool cs cw ids s [] r hr with h | h
    · cases h
    · exact h

/-- C7 counterexample to the claim as stated: with an unrecognized tool
name, an id whose candidate exists is nevertheless omitted from the
result list (the `else: continue` branch). -/
theorem C7_counterexample :
    (trigger_automated_calls config_actual (fun _ => .emptySuccess) sampleState
        [1] sampleJob "bogus" (some "x") none).2 = []
    ∧ findCandidate sampleState 1 = some sampleCandidate :=
  ⟨rfl, rfl⟩

/-- Witness for C7: the amended theorem at a two-id batch over the sample
database, one existing and one missing candidate, with the n8n tool. -/
theorem C7_witness :
    validToolSelection "n8n" none = true
    ∧ ((trigger_automated_calls config_actual (fun _ => .emptySuccess)
          sampleState ([1, 2] : List Int) sampleJob "n8n" (some "x") none).2).map
          (fun r => r.candidate_id)
        = ([1, 2] : List Int).filter (fun i => (findCandidate sampleState i).isSome) :=
  ⟨by decide,
   (C7_batch_isolation config_actual (fun _ => .emptySuccess) sampleState
      ([1, 2] : List Int) sampleJob "n8n" (some "x") none).2.1 (by decide)⟩

end NaukriScapper
